import Mathlib

/-
Verification of the geospatial extent resolution and dual-mode site
rendering logic of xcsv-plot-map (src/xcsv/plot_map/__init__.py).

The embedding models:
  - a dataset as its extended header: a list of key/value string pairs,
    looked up through get_metadata_item_value (returns none for a missing
    key, mirroring the collaborator contract that it never raises);
  - Python float(...) applied to an optional string: float(None) raises
    TypeError, float(s) parses an optionally signed decimal literal with
    optional fractional part and exponent, surrounded by optional
    whitespace, and raises ValueError on anything else (the model covers
    the finite decimal literals relevant here; it omits inf/nan and
    underscore separators).  Numeric values are represented exactly as
    rationals;
  - the Python exceptions raised by the plotting core as an inductive
    type, one constructor per distinct raise site or exception class;
  - the extent functions Plot._get_site_plot_extent,
    get_site_plot_extent_from_point, get_site_plot_extent_from_bbox and
    get_site_plot_extent, preserving the left-to-right evaluation order
    of the list comprehensions and of min/max (Python min/max of an empty
    sequence raises ValueError);
  - the site renderers plot_point_site, plot_bbox_site and plot_site,
    with matplotlib/cartopy drawing calls abstracted to a list of draw
    commands, and the try/except KeyError blocks modelled explicitly.
-/

set_option autoImplicit false

namespace XcsvPlotMap

/-- The Python exceptions that the plotting core can raise or catch.
TypeError and ValueError arise from float(...) coercion; the three
KeyError constructors correspond to the three distinct raise sites in
the source (empty input, no coordinate keys for extent classification,
no spatial keys for site plotting); extentValueError is the ValueError
raised by Plot._get_site_plot_extent, which wraps the underlying
exception in its message. -/
inductive PyExn where
  | typeError : PyExn
  | valueError : PyExn
  | emptyInputKeyError : PyExn
  | noCoordKeysKeyError : PyExn
  | noSpatialKeysKeyError : PyExn
  | extentValueError (underlying : PyExn) : PyExn
  deriving DecidableEq, Repr

/-- True for the constructors that model Python KeyError instances:
these are what an except KeyError block catches. -/
def PyExn.isKeyError : PyExn → Bool
  | .emptyInputKeyError => true
  | .noCoordKeysKeyError => true
  | .noSpatialKeysKeyError => true
  | _ => false

/-- A dataset, reduced to its extended header section: the metadata
mapping from string key to string value that the core reads through
get_metadata_item_value and tests with the in operator. -/
structure Dataset where
  header : List (String × String)
  deriving DecidableEq, Repr

/-- The collaborator lookup dataset.get_metadata_item_value(key): the
value of the first header item with the given key, or none when the key
is absent (the collaborator returns None rather than raising). -/
def Dataset.get_metadata_item_value (d : Dataset) (key : String) : Option String :=
  (d.header.find? (fun p => p.1 == key)).map (fun p => p.2)

/-- The membership test key in dataset.metadata[header] used for
representation classification. -/
def Dataset.headerHasKey (d : Dataset) (key : String) : Bool :=
  d.header.any (fun p => p.1 == key)

/-- str.strip() on a character list: drop whitespace from both ends. -/
def stripChars (cs : List Char) : List Char :=
  ((cs.dropWhile Char.isWhitespace).reverse.dropWhile Char.isWhitespace).reverse

/-- Split a character list into its leading run of decimal digits and
the remainder. -/
def takeDigits : List Char → List Char × List Char
  | [] => ([], [])
  | c :: cs =>
    if c.isDigit then
      let (ds, rest) := takeDigits cs
      (c :: ds, rest)
    else
      ([], c :: cs)

/-- The natural number denoted by a list of decimal digit characters. -/
def digitsToNat (ds : List Char) : Nat :=
  ds.foldl (fun n c => 10 * n + (c.toNat - 48)) 0

/-- Consume an optional leading sign; true means negative. -/
def parseSign : List Char → Bool × List Char
  | '-' :: cs => (true, cs)
  | '+' :: cs => (false, cs)
  | cs => (false, cs)

/-- Parse an unsigned decimal literal digits[.digits] or .digits,
returning its exact rational value and the remaining characters. -/
def parseUnsigned (cs : List Char) : Option (ℚ × List Char) :=
  let (ip, rest) := takeDigits cs
  match rest with
  | '.' :: rest2 =>
    let (fp, rest3) := takeDigits rest2
    if ip.isEmpty && fp.isEmpty then
      none
    else
      some ((digitsToNat ip : ℚ) + (digitsToNat fp : ℚ) / ((10 : ℚ) ^ fp.length), rest3)
  | _ =>
    if ip.isEmpty then none else some ((digitsToNat ip : ℚ), rest)

/-- Parse an optional exponent part (e|E)[+|-]digits, returning the
exponent (0 when absent) and the remaining characters; a bare e with no
digits is a parse failure, as in Python. -/
def parseExponentPart (cs : List Char) : Option (Int × List Char) :=
  match cs with
  | [] => some (0, [])
  | c :: rest =>
    if c == 'e' || c == 'E' then
      let (neg, rest2) := parseSign rest
      let (ds, rest3) := takeDigits rest2
      if ds.isEmpty then
        none
      else
        some ((if neg then -(digitsToNat ds : Int) else (digitsToNat ds : Int)), rest3)
    else
      some (0, c :: rest)

/-- Python float(s) on a string, as an exact rational: strip surrounding
whitespace, then an optional sign, a decimal literal and an optional
exponent must consume the whole string; any trailing characters (such
as a unit annotation) make the conversion fail. -/
def pyFloat? (s : String) : Option ℚ :=
  let cs := stripChars s.data
  let (neg, cs1) := parseSign cs
  match parseUnsigned cs1 with
  | none => none
  | some (m, cs2) =>
    match parseExponentPart cs2 with
    | none => none
    | some (e, cs3) =>
      if cs3.isEmpty then
        some (if neg then -(m * (10 : ℚ) ^ e) else m * (10 : ℚ) ^ e)
      else
        none

/-- float(v) applied to the result of a metadata lookup: float(None)
raises TypeError; an unparseable string raises ValueError. -/
def coerceFloat : Option String → Except PyExn ℚ
  | none => .error .typeError
  | some s =>
    match pyFloat? s with
    | none => .error .valueError
    | some q => .ok q

/-- The list comprehension [float(dataset.get_metadata_item_value(key))
for dataset in datasets]: coerce the value of the given key on every
dataset, left to right, propagating the first exception. -/
def coerceKeyAll (datasets : List Dataset) (key : String) : Except PyExn (List ℚ) :=
  match datasets with
  | [] => .ok []
  | d :: rest =>
    match coerceFloat (d.get_metadata_item_value key) with
    | .error e => .error e
    | .ok v =>
      match coerceKeyAll rest key with
      | .error e => .error e
      | .ok vs => .ok (v :: vs)

/-- Python min over a list of rationals: ValueError on an empty list. -/
def pyMin (xs : List ℚ) : Except PyExn ℚ :=
  match xs with
  | [] => .error .valueError
  | x :: r => .ok (r.foldl min x)

/-- Python max over a list of rationals: ValueError on an empty list. -/
def pyMax (xs : List ℚ) : Except PyExn ℚ :=
  match xs with
  | [] => .error .valueError
  | x :: r => .ok (r.foldl max x)

/-- The minimum of a non-empty list as a total function (the empty case
is never reached under the hypotheses it is used with). -/
def foldMin : List ℚ → ℚ
  | [] => 0
  | x :: r => r.foldl min x

/-- The maximum of a non-empty list as a total function. -/
def foldMax : List ℚ → ℚ
  | [] => 0
  | x :: r => r.foldl max x

/-- The body of the try block of Plot._get_site_plot_extent: the list
[min([...k0...]) - offset, max([...k1...]) + offset,
 min([...k2...]) - offset, max([...k3...]) + offset], evaluated left to
right with the first exception propagating. -/
def extentCalc (datasets : List Dataset) (k0 k1 k2 k3 : String) (offset : ℚ) :
    Except PyExn (List ℚ) :=
  match coerceKeyAll datasets k0 with
  | .error e => .error e
  | .ok xs0 =>
    match pyMin xs0 with
    | .error e => .error e
    | .ok m0 =>
      match coerceKeyAll datasets k1 with
      | .error e => .error e
      | .ok xs1 =>
        match pyMax xs1 with
        | .error e => .error e
        | .ok m1 =>
          match coerceKeyAll datasets k2 with
          | .error e => .error e
          | .ok xs2 =>
            match pyMin xs2 with
            | .error e => .error e
            | .ok m2 =>
              match coerceKeyAll datasets k3 with
              | .error e => .error e
              | .ok xs3 =>
                match pyMax xs3 with
                | .error e => .error e
                | .ok m3 => .ok [m0 - offset, m1 + offset, m2 - offset, m3 + offset]

/-- Plot._get_site_plot_extent(datasets, keys, offset) with
keys = [k0, k1, k2, k3]: any TypeError or ValueError from the extent
computation is caught and re-raised as a ValueError whose message wraps
the underlying exception (modelled by the extentValueError constructor
carrying the underlying exception). -/
def get_site_plot_extent_keys (datasets : List Dataset) (k0 k1 k2 k3 : String)
    (offset : ℚ) : Except PyExn (List ℚ) :=
  match extentCalc datasets k0 k1 k2 k3 offset with
  | .ok extent => .ok extent
  | .error e => .error (.extentValueError e)

/-- Plot.get_site_plot_extent_from_point(datasets, xkey, ykey, offset):
keys = [xkey, xkey, ykey, ykey].  The Python defaults are
xkey=longitude, ykey=latitude, offset=5; callers of the model pass them
explicitly. -/
def get_site_plot_extent_from_point (datasets : List Dataset) (xkey ykey : String)
    (offset : ℚ) : Except PyExn (List ℚ) :=
  get_site_plot_extent_keys datasets xkey xkey ykey ykey offset

/-- Plot.get_site_plot_extent_from_bbox(datasets, xminkey, xmaxkey,
yminkey, ymaxkey, offset): keys = [xminkey, xmaxkey, yminkey, ymaxkey].
The Python defaults are the four geospatial_* keys and offset=5. -/
def get_site_plot_extent_from_bbox (datasets : List Dataset)
    (xminkey xmaxkey yminkey ymaxkey : String) (offset : ℚ) :
    Except PyExn (List ℚ) :=
  get_site_plot_extent_keys datasets xminkey xmaxkey yminkey ymaxkey offset

/-- Plot.get_site_plot_extent(datasets, point_test_key, bbox_test_key):
datasets[0] on an empty list raises IndexError, caught and re-raised as
the empty-input KeyError; otherwise the first dataset is classified by
key presence and the matching resolver is called with all its Python
default arguments (coordinate keys and offset 5); when neither test key
is present a KeyError is raised. -/
def get_site_plot_extent (datasets : List Dataset)
    (point_test_key bbox_test_key : String) : Except PyExn (List ℚ) :=
  match datasets with
  | [] => .error .emptyInputKeyError
  | test_dataset :: _ =>
    if test_dataset.headerHasKey point_test_key then
      get_site_plot_extent_from_point datasets "longitude" "latitude" 5
    else if test_dataset.headerHasKey bbox_test_key then
      get_site_plot_extent_from_bbox datasets "geospatial_lon_min"
        "geospatial_lon_max" "geospatial_lat_min" "geospatial_lat_max" 5
    else
      .error .noCoordKeysKeyError

/-- An abstract drawing command issued against the map axis: a point
marker (ax.plot with a single coordinate pair), a rectangle
(shapely geometry.box passed to ax.add_geometries) or a text label
(ax.text; the label is the site metadata value, possibly None). -/
inductive DrawCmd where
  | point (x y : ℚ) : DrawCmd
  | box (xmin xmax ymin ymax : ℚ) : DrawCmd
  | text (x y : ℚ) (label : Option String) : DrawCmd
  deriving DecidableEq, Repr

/-- An except KeyError block around a computation producing draw
commands: a KeyError is swallowed (nothing drawn); any other exception
propagates. -/
def catchKeyError (r : Except PyExn (List DrawCmd)) : Except PyExn (List DrawCmd) :=
  match r with
  | .error e => if e.isKeyError then .ok [] else .error e
  | .ok cmds => .ok cmds

/-- The try block of Plot.plot_point_site: coerce the x and y
coordinate values, then plot the marker and the site label offset from
it. -/
def plot_point_site_body (dataset : Dataset) (xkey ykey site_key : String)
    (xoffset yoffset : ℚ) : Except PyExn (List DrawCmd) :=
  let site := dataset.get_metadata_item_value site_key
  match coerceFloat (dataset.get_metadata_item_value xkey) with
  | .error e => .error e
  | .ok lon =>
    match coerceFloat (dataset.get_metadata_item_value ykey) with
    | .error e => .error e
    | .ok lat =>
      .ok [.point lon lat, .text (lon + xoffset) (lat + yoffset) site]

/-- Plot.plot_point_site(ax, dataset, xkey, ykey, site_key, ...,
xoffset, yoffset, ...): the try block wrapped in except KeyError: pass.
The Python defaults are xkey=longitude, ykey=latitude, site_key=site,
xoffset=0, yoffset=-0.5. -/
def plot_point_site (dataset : Dataset) (xkey ykey site_key : String)
    (xoffset yoffset : ℚ) : Except PyExn (List DrawCmd) :=
  catchKeyError (plot_point_site_body dataset xkey ykey site_key xoffset yoffset)

/-- The try block of Plot.plot_bbox_site: coerce the four bounding-box
values, then draw the box and the site label offset from its
minimum corner. -/
def plot_bbox_site_body (dataset : Dataset)
    (xminkey xmaxkey yminkey ymaxkey site_key : String)
    (xoffset yoffset : ℚ) : Except PyExn (List DrawCmd) :=
  let site := dataset.get_metadata_item_value site_key
  match coerceFloat (dataset.get_metadata_item_value xminkey) with
  | .error e => .error e
  | .ok lon_min =>
    match coerceFloat (dataset.get_metadata_item_value xmaxkey) with
    | .error e => .error e
    | .ok lon_max =>
      match coerceFloat (dataset.get_metadata_item_value yminkey) with
      | .error e => .error e
      | .ok lat_min =>
        match coerceFloat (dataset.get_metadata_item_value ymaxkey) with
        | .error e => .error e
        | .ok lat_max =>
          .ok [.box lon_min lon_max lat_min lat_max,
               .text (lon_min + xoffset) (lat_min + yoffset) site]

/-- Plot.plot_bbox_site(ax, dataset, xminkey, xmaxkey, yminkey,
ymaxkey, site_key, ..., xoffset, yoffset, ...): the try block wrapped
in except KeyError: pass.  The Python defaults are the four
geospatial_* keys, site_key=site, xoffset=0, yoffset=-0.5. -/
def plot_bbox_site (dataset : Dataset)
    (xminkey xmaxkey yminkey ymaxkey site_key : String)
    (xoffset yoffset : ℚ) : Except PyExn (List DrawCmd) :=
  catchKeyError
    (plot_bbox_site_body dataset xminkey xmaxkey yminkey ymaxkey site_key xoffset yoffset)

/-- Plot.plot_site(ax, dataset, point_test_key, bbox_test_key,
site_key, ..., xoffset, yoffset, ...): dispatch on key presence in the
dataset header, calling the matching renderer with its Python default
coordinate keys; raise a KeyError when neither test key is present. -/
def plot_site (dataset : Dataset) (point_test_key bbox_test_key site_key : String)
    (xoffset yoffset : ℚ) : Except PyExn (List DrawCmd) :=
  if dataset.headerHasKey point_test_key then
    plot_point_site dataset "longitude" "latitude" site_key xoffset yoffset
  else if dataset.headerHasKey bbox_test_key then
    plot_bbox_site dataset "geospatial_lon_min" "geospatial_lon_max"
      "geospatial_lat_min" "geospatial_lat_max" site_key xoffset yoffset
  else
    .error .noSpatialKeysKeyError

/-- Modelled from the spec: the per-dataset RepresentationMode of
section 3 and the classify operation of section 4.1, used to state the
refinement claim about the unified resolver.  POINT when the point test
key is present, else BBOX when the bbox test key is present, else
UNRESOLVED. -/
inductive RepresentationMode where
  | POINT : RepresentationMode
  | BBOX : RepresentationMode
  | UNRESOLVED : RepresentationMode
  deriving DecidableEq, Repr

/-- Modelled from the spec: classify(dataset, point_test_key,
bbox_test_key), by key presence only. -/
def classify (d : Dataset) (point_test_key bbox_test_key : String) :
    RepresentationMode :=
  if d.headerHasKey point_test_key then .POINT
  else if d.headerHasKey bbox_test_key then .BBOX
  else .UNRESOLVED

/-! Concrete datasets used by witnesses and counterexamples.  The
point datasets mirror the three-site scenario of the test suite
(longitudes -78.16, -72.0, -65.46; latitudes -74.45, -74.0, -73.86);
the bbox datasets span the same overall extent. -/

/-- Point-mode dataset 1 of the concrete scenario. -/
def siteDs1 : Dataset :=
  ⟨[("id", "1"), ("longitude", "-78.16"), ("latitude", "-74.45"), ("site", "Site 1")]⟩

/-- Point-mode dataset 2 of the concrete scenario. -/
def siteDs2 : Dataset :=
  ⟨[("id", "2"), ("longitude", "-72.0"), ("latitude", "-74.0"), ("site", "Site 2")]⟩

/-- Point-mode dataset 3 of the concrete scenario. -/
def siteDs3 : Dataset :=
  ⟨[("id", "3"), ("longitude", "-65.46"), ("latitude", "-73.86"), ("site", "Site 3")]⟩

/-- Bbox-mode dataset 1. -/
def bboxDs1 : Dataset :=
  ⟨[("id", "4"), ("geospatial_lon_min", "-78.16"), ("geospatial_lon_max", "-72.0"),
    ("geospatial_lat_min", "-74.45"), ("geospatial_lat_max", "-74.0"),
    ("site", "BBox 1")]⟩

/-- Bbox-mode dataset 2. -/
def bboxDs2 : Dataset :=
  ⟨[("id", "5"), ("geospatial_lon_min", "-75.0"), ("geospatial_lon_max", "-65.46"),
    ("geospatial_lat_min", "-74.2"), ("geospatial_lat_max", "-73.86"),
    ("site", "BBox 2")]⟩

/-- A dataset whose coordinate values carry trailing unit annotations,
exactly as they appear in a raw extended header line. -/
def unitAnnotatedDs : Dataset :=
  ⟨[("id", "6"), ("longitude", "-65.46 (degree_east)"),
    ("latitude", "-73.86 (degree_north)"), ("site", "Annotated")]⟩

/-- The same dataset after the collaborator has stripped the unit
annotations, leaving the bare numeric tokens. -/
def strippedDs : Dataset :=
  ⟨[("id", "6"), ("longitude", "-65.46"), ("latitude", "-73.86"),
    ("site", "Annotated")]⟩

/-- A point-mode dataset missing its latitude coordinate key. -/
def missingLatDs : Dataset :=
  ⟨[("id", "7"), ("longitude", "-65.46"), ("site", "No latitude")]⟩

/-- A bbox-mode dataset missing its geospatial_lat_max sub-key. -/
def missingBboxSubDs : Dataset :=
  ⟨[("id", "8"), ("geospatial_lon_min", "-78.16"), ("geospatial_lon_max", "-72.0"),
    ("geospatial_lat_min", "-74.45"), ("site", "No lat max")]⟩

/-- A dataset carrying neither the point nor the bbox key family. -/
def noSpatialDs : Dataset :=
  ⟨[("id", "9"), ("site", "Nowhere")]⟩

/-- A dataset carrying both test keys (point and bbox families). -/
def bothKeysDs : Dataset :=
  ⟨[("id", "10"), ("longitude", "-72.0"), ("latitude", "-74.0"),
    ("geospatial_lon_min", "-78.16"), ("site", "Both")]⟩

/-! Helper lemmas about the coercion of a key across a dataset list and
about fold-based minima and maxima. -/

/-- The coordinate extraction for a key fails on a dataset: the key is
absent (float(None) raises TypeError) or its value is not numeric
(float raises ValueError). -/
def coordFails (d : Dataset) (key : String) : Prop :=
  ∃ e, coerceFloat (d.get_metadata_item_value key) = .error e

/-- coordFails unfolded: the key is missing from the header, or present
with a value that does not parse as a float. -/
theorem coordFails_iff (d : Dataset) (key : String) :
    coordFails d key ↔
      d.get_metadata_item_value key = none ∨
        ∃ s, d.get_metadata_item_value key = some s ∧ pyFloat? s = none := by
  unfold coordFails
  cases hv : d.get_metadata_item_value key with
  | none => simp [coerceFloat]
  | some s =>
    cases hp : pyFloat? s with
    | none => simp [coerceFloat, hp]
    | some q => simp [coerceFloat, hp]

/-- Unfolding coerceKeyAll on a cons cell in the success case. -/
theorem coerceKeyAll_cons_ok {d : Dataset} {rest : List Dataset} {key : String}
    {vs : List ℚ} (h : coerceKeyAll (d :: rest) key = .ok vs) :
    ∃ v tail, coerceFloat (d.get_metadata_item_value key) = .ok v ∧
      coerceKeyAll rest key = .ok tail ∧ vs = v :: tail := by
  rw [coerceKeyAll] at h
  cases hc : coerceFloat (d.get_metadata_item_value key) with
  | error e => rw [hc] at h; cases h
  | ok v =>
    rw [hc] at h
    cases hr : coerceKeyAll rest key with
    | error e => rw [hr] at h; cases h
    | ok tail =>
      rw [hr] at h
      cases h
      exact ⟨v, tail, rfl, rfl, rfl⟩

/-- A successful batch coercion yields one value per dataset. -/
theorem coerceKeyAll_ok_length {datasets : List Dataset} {key : String}
    {vs : List ℚ} (h : coerceKeyAll datasets key = .ok vs) :
    vs.length = datasets.length := by
  induction datasets generalizing vs with
  | nil => rw [coerceKeyAll] at h; cases h; rfl
  | cons d rest ih =>
    obtain ⟨v, tail, _, hr, rfl⟩ := coerceKeyAll_cons_ok h
    simp [ih hr]

/-- A successful batch coercion means the coercion succeeds on every
dataset of the list. -/
theorem coerceKeyAll_ok_forall {datasets : List Dataset} {key : String}
    {vs : List ℚ} (h : coerceKeyAll datasets key = .ok vs) :
    ∀ d ∈ datasets, ∃ q, coerceFloat (d.get_metadata_item_value key) = .ok q := by
  induction datasets generalizing vs with
  | nil => intro d hd; cases hd
  | cons d0 rest ih =>
    obtain ⟨v, tail, hv, hr, rfl⟩ := coerceKeyAll_cons_ok h
    intro d hd
    rcases List.mem_cons.mp hd with rfl | hd2
    · exact ⟨v, hv⟩
    · exact ih hr d hd2

/-- Folding min from an initial value never exceeds that value. -/
theorem foldl_min_le_init (r : List ℚ) (x : ℚ) : r.foldl min x ≤ x := by
  induction r generalizing x with
  | nil => exact le_refl x
  | cons a r ih => exact le_trans (ih (min x a)) (min_le_left x a)

/-- Folding max from an initial value never drops below that value. -/
theorem le_foldl_max_init (r : List ℚ) (x : ℚ) : x ≤ r.foldl max x := by
  induction r generalizing x with
  | nil => exact le_refl x
  | cons a r ih => exact le_trans (le_max_left x a) (ih (max x a))

/-- The head bounds foldMin from above on a non-empty list. -/
theorem foldMin_cons_le (x : ℚ) (r : List ℚ) : foldMin (x :: r) ≤ x :=
  foldl_min_le_init r x

/-- The head bounds foldMax from below on a non-empty list. -/
theorem le_foldMax_cons (x : ℚ) (r : List ℚ) : x ≤ foldMax (x :: r) :=
  le_foldl_max_init r x

/-- When the coercion of all four key lists succeeds on a non-empty
collection, _get_site_plot_extent returns exactly the four-element
min/max extent with the offset applied. -/
theorem extent_keys_ok {datasets : List Dataset} {k0 k1 k2 k3 : String}
    {offset : ℚ} {vs0 vs1 vs2 vs3 : List ℚ}
    (hne : datasets ≠ [])
    (h0 : coerceKeyAll datasets k0 = .ok vs0)
    (h1 : coerceKeyAll datasets k1 = .ok vs1)
    (h2 : coerceKeyAll datasets k2 = .ok vs2)
    (h3 : coerceKeyAll datasets k3 = .ok vs3) :
    get_site_plot_extent_keys datasets k0 k1 k2 k3 offset =
      .ok [foldMin vs0 - offset, foldMax vs1 + offset,
           foldMin vs2 - offset, foldMax vs3 + offset] := by
  obtain ⟨d, rest, rfl⟩ : ∃ d rest, datasets = d :: rest := by
    cases datasets with
    | nil => exact absurd rfl hne
    | cons d rest => exact ⟨d, rest, rfl⟩
  obtain ⟨v0, t0, _, _, rfl⟩ := coerceKeyAll_cons_ok h0
  obtain ⟨v1, t1, _, _, rfl⟩ := coerceKeyAll_cons_ok h1
  obtain ⟨v2, t2, _, _, rfl⟩ := coerceKeyAll_cons_ok h2
  obtain ⟨v3, t3, _, _, rfl⟩ := coerceKeyAll_cons_ok h3
  simp [get_site_plot_extent_keys, extentCalc, h0, h1, h2, h3, pyMin, pyMax,
    foldMin, foldMax]

/-- When some dataset of the collection fails coercion on one of the
four keys, _get_site_plot_extent fails with the wrapping ValueError,
carrying some underlying exception. -/
theorem extent_keys_error {datasets : List Dataset} {k0 k1 k2 k3 : String}
    {offset : ℚ}
    (hbad : ∃ d ∈ datasets,
      coordFails d k0 ∨ coordFails d k1 ∨ coordFails d k2 ∨ coordFails d k3) :
    ∃ e, get_site_plot_extent_keys datasets k0 k1 k2 k3 offset =
      .error (.extentValueError e) := by
  obtain ⟨d, hd, hfail⟩ := hbad
  have hne : datasets ≠ [] := by
    rintro rfl
    cases hd
  obtain ⟨dh, rest, rfl⟩ : ∃ dh rest, datasets = dh :: rest := by
    cases datasets with
    | nil => exact absurd rfl hne
    | cons dh rest => exact ⟨dh, rest, rfl⟩
  cases h0 : coerceKeyAll (dh :: rest) k0 with
  | error e => exact ⟨e, by simp [get_site_plot_extent_keys, extentCalc, h0]⟩
  | ok vs0 =>
    obtain ⟨v0, t0, _, _, rfl⟩ := coerceKeyAll_cons_ok h0
    cases h1 : coerceKeyAll (dh :: rest) k1 with
    | error e =>
      exact ⟨e, by simp [get_site_plot_extent_keys, extentCalc, h0, h1, pyMin]⟩
    | ok vs1 =>
      obtain ⟨v1, t1, _, _, rfl⟩ := coerceKeyAll_cons_ok h1
      cases h2 : coerceKeyAll (dh :: rest) k2 with
      | error e =>
        exact ⟨e, by simp [get_site_plot_extent_keys, extentCalc, h0, h1, h2,
          pyMin, pyMax]⟩
      | ok vs2 =>
        obtain ⟨v2, t2, _, _, rfl⟩ := coerceKeyAll_cons_ok h2
        cases h3 : coerceKeyAll (dh :: rest) k3 with
        | error e =>
          exact ⟨e, by simp [get_site_plot_extent_keys, extentCalc, h0, h1, h2,
            h3, pyMin, pyMax]⟩
        | ok vs3 =>
          exfalso
          rcases hfail with hf | hf | hf | hf
          · obtain ⟨q, hq⟩ := coerceKeyAll_ok_forall h0 d hd
            obtain ⟨e, he⟩ := hf
            rw [he] at hq
            cases hq
          · obtain ⟨q, hq⟩ := coerceKeyAll_ok_forall h1 d hd
            obtain ⟨e, he⟩ := hf
            rw [he] at hq
            cases hq
          · obtain ⟨q, hq⟩ := coerceKeyAll_ok_forall h2 d hd
            obtain ⟨e, he⟩ := hf
            rw [he] at hq
            cases hq
          · obtain ⟨q, hq⟩ := coerceKeyAll_ok_forall h3 d hd
            obtain ⟨e, he⟩ := hf
            rw [he] at hq
            cases hq

/-- Inversion of a successful extent computation: all four coercions
succeeded, each value list is non-empty, and the extent is the four
folded bounds with the offset applied. -/
theorem extent_keys_ok_inv {datasets : List Dataset} {k0 k1 k2 k3 : String}
    {offset : ℚ} {ext : List ℚ}
    (h : get_site_plot_extent_keys datasets k0 k1 k2 k3 offset = .ok ext) :
    ∃ v0 t0 v1 t1 v2 t2 v3 t3,
      coerceKeyAll datasets k0 = .ok (v0 :: t0) ∧
      coerceKeyAll datasets k1 = .ok (v1 :: t1) ∧
      coerceKeyAll datasets k2 = .ok (v2 :: t2) ∧
      coerceKeyAll datasets k3 = .ok (v3 :: t3) ∧
      ext = [foldMin (v0 :: t0) - offset, foldMax (v1 :: t1) + offset,
             foldMin (v2 :: t2) - offset, foldMax (v3 :: t3) + offset] := by
  cases h0 : coerceKeyAll datasets k0 with
  | error e => rw [get_site_plot_extent_keys, extentCalc, h0] at h; cases h
  | ok vs0 =>
    cases vs0 with
    | nil => rw [get_site_plot_extent_keys, extentCalc, h0] at h; cases h
    | cons v0 t0 =>
      cases h1 : coerceKeyAll datasets k1 with
      | error e => rw [get_site_plot_extent_keys, extentCalc, h0, h1] at h; cases h
      | ok vs1 =>
        cases vs1 with
        | nil => rw [get_site_plot_extent_keys, extentCalc, h0, h1] at h; cases h
        | cons v1 t1 =>
          cases h2 : coerceKeyAll datasets k2 with
          | error e =>
            rw [get_site_plot_extent_keys, extentCalc, h0, h1, h2] at h; cases h
          | ok vs2 =>
            cases vs2 with
            | nil =>
              rw [get_site_plot_extent_keys, extentCalc, h0, h1, h2] at h; cases h
            | cons v2 t2 =>
              cases h3 : coerceKeyAll datasets k3 with
              | error e =>
                rw [get_site_plot_extent_keys, extentCalc, h0, h1, h2, h3] at h
                cases h
              | ok vs3 =>
                cases vs3 with
                | nil =>
                  rw [get_site_plot_extent_keys, extentCalc, h0, h1, h2, h3] at h
                  cases h
                | cons v3 t3 =>
                  rw [get_site_plot_extent_keys, extentCalc, h0, h1, h2, h3] at h
                  cases h
                  exact ⟨v0, t0, v1, t1, v2, t2, v3, t3, rfl, rfl, rfl, rfl, rfl⟩

/-! The claims. -/

/-- Claim C1: for every non-empty collection of point-mode datasets
whose xkey and ykey values coerce to numbers on all datasets (the
coerced values being xs and ys), and for every offset, including
non-default values, get_site_plot_extent_from_point returns exactly
the extent [min xs - offset, max xs + offset, min ys - offset,
max ys + offset]. -/
theorem point_extent_exact (datasets : List Dataset) (xkey ykey : String)
    (offset : ℚ) (xs ys : List ℚ) (hne : datasets ≠ [])
    (hx : coerceKeyAll datasets xkey = .ok xs)
    (hy : coerceKeyAll datasets ykey = .ok ys) :
    get_site_plot_extent_from_point datasets xkey ykey offset =
      .ok [foldMin xs - offset, foldMax xs + offset,
           foldMin ys - offset, foldMax ys + offset] :=
  extent_keys_ok hne hx hx hy hy

/-- Witness for C1: the three-site concrete scenario with the default
offset 5 yields the extent [-83.16, -60.46, -79.45, -68.86]. -/
theorem point_extent_exact_witness :
    get_site_plot_extent_from_point [siteDs1, siteDs2, siteDs3]
      "longitude" "latitude" 5 =
      .ok [-83.16, -60.46, -79.45, -68.86] :=
  (point_extent_exact [siteDs1, siteDs2, siteDs3] "longitude" "latitude" 5
    [-78.16, -72.0, -65.46] [-74.45, -74.0, -73.86]
    (List.cons_ne_nil _ _) (by with_unfolding_all rfl)
    (by with_unfolding_all rfl)).trans (by norm_num [foldMin, foldMax])

/-- Claim C2: for every non-empty collection of bbox-mode datasets
whose four bounding-box key values coerce to numbers on all datasets,
and for every offset, get_site_plot_extent_from_bbox returns exactly
[min xmins - offset, max xmaxs + offset, min ymins - offset,
max ymaxs + offset]. -/
theorem bbox_extent_exact (datasets : List Dataset)
    (xminkey xmaxkey yminkey ymaxkey : String) (offset : ℚ)
    (xmins xmaxs ymins ymaxs : List ℚ) (hne : datasets ≠ [])
    (hxmin : coerceKeyAll datasets xminkey = .ok xmins)
    (hxmax : coerceKeyAll datasets xmaxkey = .ok xmaxs)
    (hymin : coerceKeyAll datasets yminkey = .ok ymins)
    (hymax : coerceKeyAll datasets ymaxkey = .ok ymaxs) :
    get_site_plot_extent_from_bbox datasets xminkey xmaxkey yminkey ymaxkey offset =
      .ok [foldMin xmins - offset, foldMax xmaxs + offset,
           foldMin ymins - offset, foldMax ymaxs + offset] :=
  extent_keys_ok hne hxmin hxmax hymin hymax

/-- Witness for C2: two bbox datasets with the non-default offset 10
yield the extent [-88.16, -55.46, -84.45, -63.86]. -/
theorem bbox_extent_exact_witness :
    get_site_plot_extent_from_bbox [bboxDs1, bboxDs2] "geospatial_lon_min"
      "geospatial_lon_max" "geospatial_lat_min" "geospatial_lat_max" 10 =
      .ok [-88.16, -55.46, -84.45, -63.86] :=
  (bbox_extent_exact [bboxDs1, bboxDs2] "geospatial_lon_min" "geospatial_lon_max"
    "geospatial_lat_min" "geospatial_lat_max" 10
    [-78.16, -75.0] [-72.0, -65.46] [-74.45, -74.2] [-74.0, -73.86]
    (List.cons_ne_nil _ _) (by with_unfolding_all rfl) (by with_unfolding_all rfl)
    (by with_unfolding_all rfl) (by with_unfolding_all rfl)).trans
    (by norm_num [foldMin, foldMax])

/-- Claim C3: on a non-empty collection, get_site_plot_extent
classifies using only the first dataset: when the point test key is
present in its header it dispatches to the point resolver (point takes
precedence even when both test keys are present, since the first
conjunct needs no hypothesis about the bbox key); else, when the bbox
test key is present, to the bbox resolver; else it fails with the
classification KeyError.  Classification is by key presence only, and
whichever resolver is selected is applied to the whole collection. -/
theorem unified_extent_dispatch (d : Dataset) (rest : List Dataset)
    (pk bk : String) :
    (d.headerHasKey pk = true →
      get_site_plot_extent (d :: rest) pk bk =
        get_site_plot_extent_from_point (d :: rest) "longitude" "latitude" 5) ∧
    (d.headerHasKey pk = false → d.headerHasKey bk = true →
      get_site_plot_extent (d :: rest) pk bk =
        get_site_plot_extent_from_bbox (d :: rest) "geospatial_lon_min"
          "geospatial_lon_max" "geospatial_lat_min" "geospatial_lat_max" 5) ∧
    (d.headerHasKey pk = false → d.headerHasKey bk = false →
      get_site_plot_extent (d :: rest) pk bk = .error .noCoordKeysKeyError) :=
  ⟨fun hp => by simp [get_site_plot_extent, hp],
   fun hp hb => by simp [get_site_plot_extent, hp, hb],
   fun hp hb => by simp [get_site_plot_extent, hp, hb]⟩

/-- Witness for C3: a first dataset holding both test keys dispatches
to the point resolver; a bbox-only collection dispatches to the bbox
resolver; a dataset with neither key fails classification. -/
theorem unified_extent_dispatch_witness :
    get_site_plot_extent [bothKeysDs, siteDs2] "longitude" "geospatial_lon_min" =
      get_site_plot_extent_from_point [bothKeysDs, siteDs2] "longitude" "latitude" 5 ∧
    get_site_plot_extent [bboxDs1, bboxDs2] "longitude" "geospatial_lon_min" =
      get_site_plot_extent_from_bbox [bboxDs1, bboxDs2] "geospatial_lon_min"
        "geospatial_lon_max" "geospatial_lat_min" "geospatial_lat_max" 5 ∧
    get_site_plot_extent [noSpatialDs] "longitude" "geospatial_lon_min" =
      .error .noCoordKeysKeyError :=
  ⟨(unified_extent_dispatch bothKeysDs [siteDs2] "longitude" "geospatial_lon_min").1 rfl,
   (unified_extent_dispatch bboxDs1 [bboxDs2] "longitude" "geospatial_lon_min").2.1 rfl rfl,
   (unified_extent_dispatch noSpatialDs [] "longitude" "geospatial_lon_min").2.2 rfl rfl⟩

/-- Claim C4: get_site_plot_extent on an empty dataset collection fails
with the empty-input KeyError, for any test keys, without reaching
either mode-specific resolver. -/
theorem unified_extent_empty_input (point_test_key bbox_test_key : String) :
    get_site_plot_extent [] point_test_key bbox_test_key =
      .error .emptyInputKeyError :=
  rfl

/-- Claim C5: when at least one dataset of the collection lacks a
required coordinate key or carries a non-numeric value for it
(coordFails), point and bbox extent resolution fail with the wrapping
ValueError — all or nothing, no extent is returned for the remaining
datasets — and the error carries the specific underlying exception. -/
theorem extent_all_or_nothing (datasets : List Dataset)
    (xkey ykey xminkey xmaxkey yminkey ymaxkey : String) (offset : ℚ) :
    ((∃ d ∈ datasets, coordFails d xkey ∨ coordFails d ykey) →
      ∃ e, get_site_plot_extent_from_point datasets xkey ykey offset =
        .error (.extentValueError e)) ∧
    ((∃ d ∈ datasets, coordFails d xminkey ∨ coordFails d xmaxkey ∨
        coordFails d yminkey ∨ coordFails d ymaxkey) →
      ∃ e, get_site_plot_extent_from_bbox datasets xminkey xmaxkey yminkey
        ymaxkey offset = .error (.extentValueError e)) := by
  constructor
  · rintro ⟨d, hd, hf | hf⟩
    · exact extent_keys_error ⟨d, hd, Or.inl hf⟩
    · exact extent_keys_error ⟨d, hd, Or.inr (Or.inr (Or.inl hf))⟩
  · rintro ⟨d, hd, hf⟩
    exact extent_keys_error ⟨d, hd, hf⟩

/-- Witness for C5: a collection whose second dataset is missing the
latitude key fails point extent resolution; a bbox dataset missing its
geospatial_lat_max sub-key fails bbox extent resolution. -/
theorem extent_all_or_nothing_witness :
    (∃ e, get_site_plot_extent_from_point [siteDs1, missingLatDs]
      "longitude" "latitude" 5 = .error (.extentValueError e)) ∧
    (∃ e, get_site_plot_extent_from_bbox [missingBboxSubDs] "geospatial_lon_min"
      "geospatial_lon_max" "geospatial_lat_min" "geospatial_lat_max" 5 =
      .error (.extentValueError e)) :=
  ⟨(extent_all_or_nothing [siteDs1, missingLatDs] "longitude" "latitude"
      "geospatial_lon_min" "geospatial_lon_max" "geospatial_lat_min"
      "geospatial_lat_max" 5).1
      ⟨missingLatDs, by simp, Or.inr ⟨.typeError, rfl⟩⟩,
   (extent_all_or_nothing [missingBboxSubDs] "longitude" "latitude"
      "geospatial_lon_min" "geospatial_lon_max" "geospatial_lat_min"
      "geospatial_lat_max" 5).2
      ⟨missingBboxSubDs, by simp, Or.inr (Or.inr (Or.inr ⟨.typeError, rfl⟩))⟩⟩

/-- Counterexample for C6: the coercion inside the core does not strip
a trailing unit annotation.  On a dataset whose longitude metadata
value is the annotated string -65.46 (degree_east), the float model
rejects the string and point extent resolution fails with the wrapping
ValueError instead of resolving to the bare value -65.46. -/
theorem unit_annotation_counterexample :
    unitAnnotatedDs.get_metadata_item_value "longitude" =
      some "-65.46 (degree_east)" ∧
    pyFloat? "-65.46 (degree_east)" = none ∧
    get_site_plot_extent_from_point [unitAnnotatedDs] "longitude" "latitude" 5 =
      .error (.extentValueError .valueError) :=
  ⟨rfl, rfl, rfl⟩

/-- Claim C6 as amended: the core itself performs plain float coercion
and does not strip unit annotations; a coordinate value carrying a
trailing unit annotation makes extent resolution fail with the
wrapping ValueError.  A dataset resolves to the bare numeric value
only when the annotation has already been stripped before the value
reaches the core, as for strippedDs, which resolves to -65.46. -/
theorem unit_annotation_amended :
    get_site_plot_extent_from_point [unitAnnotatedDs] "longitude" "latitude" 5 =
      .error (.extentValueError .valueError) ∧
    get_site_plot_extent_from_point [strippedDs] "longitude" "latitude" 5 =
      .ok [-70.46, -60.46, -78.86, -68.86] := by
  refine ⟨rfl, ?_⟩
  exact (@extent_keys_ok [strippedDs] "longitude" "longitude" "latitude" "latitude"
    5 [-65.46] [-65.46] [-73.86] [-73.86] (List.cons_ne_nil _ _)
    (by with_unfolding_all rfl) (by with_unfolding_all rfl)
    (by with_unfolding_all rfl) (by with_unfolding_all rfl)).trans
    (by norm_num [foldMin, foldMax])

/-- Claim C7: plot_site fails with the no-spatial-keys KeyError on a
dataset carrying neither test key; when the point test key is present
it calls plot_point_site (with its default coordinate keys), and
otherwise, when the bbox test key is present, plot_bbox_site — the
same presence-based classification rule as extent resolution. -/
theorem plot_site_dispatch (d : Dataset) (pk bk sk : String) (xoff yoff : ℚ) :
    (d.headerHasKey pk = false → d.headerHasKey bk = false →
      plot_site d pk bk sk xoff yoff = .error .noSpatialKeysKeyError) ∧
    (d.headerHasKey pk = true →
      plot_site d pk bk sk xoff yoff =
        plot_point_site d "longitude" "latitude" sk xoff yoff) ∧
    (d.headerHasKey pk = false → d.headerHasKey bk = true →
      plot_site d pk bk sk xoff yoff =
        plot_bbox_site d "geospatial_lon_min" "geospatial_lon_max"
          "geospatial_lat_min" "geospatial_lat_max" sk xoff yoff) :=
  ⟨fun hp hb => by simp [plot_site, hp, hb],
   fun hp => by simp [plot_site, hp],
   fun hp hb => by simp [plot_site, hp, hb]⟩

/-- Witness for C7: a dataset with no spatial keys raises; a point
dataset renders through the point renderer; a bbox dataset through the
bbox renderer.  The offsets are the Python defaults 0 and -0.5. -/
theorem plot_site_dispatch_witness :
    plot_site noSpatialDs "longitude" "geospatial_lon_min" "site" 0 (-1/2) =
      .error .noSpatialKeysKeyError ∧
    plot_site siteDs1 "longitude" "geospatial_lon_min" "site" 0 (-1/2) =
      plot_point_site siteDs1 "longitude" "latitude" "site" 0 (-1/2) ∧
    plot_site bboxDs1 "longitude" "geospatial_lon_min" "site" 0 (-1/2) =
      plot_bbox_site bboxDs1 "geospatial_lon_min" "geospatial_lon_max"
        "geospatial_lat_min" "geospatial_lat_max" "site" 0 (-1/2) :=
  ⟨(plot_site_dispatch noSpatialDs "longitude" "geospatial_lon_min" "site"
      0 (-1/2)).1 rfl rfl,
   (plot_site_dispatch siteDs1 "longitude" "geospatial_lon_min" "site"
      0 (-1/2)).2.1 rfl,
   (plot_site_dispatch bboxDs1 "longitude" "geospatial_lon_min" "site"
      0 (-1/2)).2.2 rfl rfl⟩

/-- Claim C8 evaluated at its failing inputs (code bug): the renderers
are documented to swallow a missing coordinate key silently, but their
try blocks catch only KeyError, while the missing-key path returns
None from the collaborator and float(None) raises TypeError — which is
not a KeyError — so plot_point_site and plot_bbox_site raise instead
of drawing nothing. -/
theorem missing_coord_key_raises :
    plot_point_site missingLatDs "longitude" "latitude" "site" 0 (-1/2) =
      .error .typeError ∧
    plot_bbox_site missingBboxSubDs "geospatial_lon_min" "geospatial_lon_max"
      "geospatial_lat_min" "geospatial_lat_max" "site" 0 (-1/2) =
      .error .typeError ∧
    PyExn.typeError.isKeyError = false :=
  ⟨rfl, rfl, rfl⟩

/-- Claim C9: a successfully resolved extent [left, right, bottom, top]
satisfies left ≤ right and bottom ≤ top for every non-negative offset;
in bbox mode under the precondition that on each dataset the coerced
min value does not exceed the coerced max value, per axis. -/
theorem extent_ordered (datasets : List Dataset)
    (xkey ykey xminkey xmaxkey yminkey ymaxkey : String) (offset : ℚ)
    (ext1 ext2 : List ℚ) :
    (0 ≤ offset →
      get_site_plot_extent_from_point datasets xkey ykey offset = .ok ext1 →
      ∃ l r b t, ext1 = [l, r, b, t] ∧ l ≤ r ∧ b ≤ t) ∧
    (0 ≤ offset →
      (∀ d ∈ datasets, ∀ a c,
        coerceFloat (d.get_metadata_item_value xminkey) = .ok a →
        coerceFloat (d.get_metadata_item_value xmaxkey) = .ok c → a ≤ c) →
      (∀ d ∈ datasets, ∀ a c,
        coerceFloat (d.get_metadata_item_value yminkey) = .ok a →
        coerceFloat (d.get_metadata_item_value ymaxkey) = .ok c → a ≤ c) →
      get_site_plot_extent_from_bbox datasets xminkey xmaxkey yminkey ymaxkey
        offset = .ok ext2 →
      ∃ l r b t, ext2 = [l, r, b, t] ∧ l ≤ r ∧ b ≤ t) := by
  constructor
  · intro hoff h
    obtain ⟨v0, t0, v1, t1, v2, t2, v3, t3, h0, h1, h2, h3, rfl⟩ :=
      extent_keys_ok_inv h
    have hx := h0.symm.trans h1
    have hy := h2.symm.trans h3
    obtain ⟨rfl, rfl⟩ : v0 = v1 ∧ t0 = t1 := by
      injection hx with hx2
      injection hx2 with e1 e2
      exact ⟨e1, e2⟩
    obtain ⟨rfl, rfl⟩ : v2 = v3 ∧ t2 = t3 := by
      injection hy with hy2
      injection hy2 with e1 e2
      exact ⟨e1, e2⟩
    refine ⟨_, _, _, _, rfl, ?_, ?_⟩
    · have a1 := foldMin_cons_le v0 t0
      have a2 := le_foldMax_cons v0 t0
      linarith
    · have a1 := foldMin_cons_le v2 t2
      have a2 := le_foldMax_cons v2 t2
      linarith
  · intro hoff hxord hyord h
    obtain ⟨v0, t0, v1, t1, v2, t2, v3, t3, h0, h1, h2, h3, rfl⟩ :=
      extent_keys_ok_inv h
    cases datasets with
    | nil => simp [coerceKeyAll] at h0
    | cons d rest =>
      obtain ⟨w0, s0, hw0, _, he0⟩ := coerceKeyAll_cons_ok h0
      obtain ⟨w1, s1, hw1, _, he1⟩ := coerceKeyAll_cons_ok h1
      obtain ⟨w2, s2, hw2, _, he2⟩ := coerceKeyAll_cons_ok h2
      obtain ⟨w3, s3, hw3, _, he3⟩ := coerceKeyAll_cons_ok h3
      obtain ⟨rfl, rfl⟩ : v0 = w0 ∧ t0 = s0 := by
        injection he0 with e1 e2; exact ⟨e1, e2⟩
      obtain ⟨rfl, rfl⟩ : v1 = w1 ∧ t1 = s1 := by
        injection he1 with e1 e2; exact ⟨e1, e2⟩
      obtain ⟨rfl, rfl⟩ : v2 = w2 ∧ t2 = s2 := by
        injection he2 with e1 e2; exact ⟨e1, e2⟩
      obtain ⟨rfl, rfl⟩ : v3 = w3 ∧ t3 = s3 := by
        injection he3 with e1 e2; exact ⟨e1, e2⟩
      have hxc : v0 ≤ v1 := hxord d (List.mem_cons_self d rest) v0 v1 hw0 hw1
      have hyc : v2 ≤ v3 := hyord d (List.mem_cons_self d rest) v2 v3 hw2 hw3
      refine ⟨_, _, _, _, rfl, ?_, ?_⟩
      · have a1 := foldMin_cons_le v0 t0
        have a2 := le_foldMax_cons v1 t1
        linarith
      · have a1 := foldMin_cons_le v2 t2
        have a2 := le_foldMax_cons v3 t3
        linarith

/-- Witness for C9: the ordering conclusion instantiated on the
three-site point scenario with offset 5 and on a single bbox dataset
with offset 0. -/
theorem extent_ordered_witness :
    (∃ l r b t, ([(-83.16 : ℚ), -60.46, -79.45, -68.86] : List ℚ) =
      [l, r, b, t] ∧ l ≤ r ∧ b ≤ t) ∧
    (∃ l r b t, ([(-78.16 : ℚ), -72.0, -74.45, -74.0] : List ℚ) =
      [l, r, b, t] ∧ l ≤ r ∧ b ≤ t) := by
  constructor
  · exact (extent_ordered [siteDs1, siteDs2, siteDs3] "longitude" "latitude"
      "geospatial_lon_min" "geospatial_lon_max" "geospatial_lat_min"
      "geospatial_lat_max" 5 [-83.16, -60.46, -79.45, -68.86] []).1
      (by norm_num) (by with_unfolding_all rfl)
  · refine (extent_ordered [bboxDs1] "longitude" "latitude"
      "geospatial_lon_min" "geospatial_lon_max" "geospatial_lat_min"
      "geospatial_lat_max" 0 [] [-78.16, -72.0, -74.45, -74.0]).2
      (le_refl 0) ?_ ?_ (by with_unfolding_all rfl)
    · intro d hd a c ha hc
      rw [List.mem_singleton] at hd
      subst hd
      rw [show coerceFloat (bboxDs1.get_metadata_item_value "geospatial_lon_min") =
        .ok (-1954/25 : ℚ) from by with_unfolding_all rfl] at ha
      rw [show coerceFloat (bboxDs1.get_metadata_item_value "geospatial_lon_max") =
        .ok (-72 : ℚ) from by with_unfolding_all rfl] at hc
      injection ha with ha2
      injection hc with hc2
      rw [← ha2, ← hc2]
      norm_num
    · intro d hd a c ha hc
      rw [List.mem_singleton] at hd
      subst hd
      rw [show coerceFloat (bboxDs1.get_metadata_item_value "geospatial_lat_min") =
        .ok (-1489/20 : ℚ) from by with_unfolding_all rfl] at ha
      rw [show coerceFloat (bboxDs1.get_metadata_item_value "geospatial_lat_max") =
        .ok (-74 : ℚ) from by with_unfolding_all rfl] at hc
      injection ha with ha2
      injection hc with hc2
      rw [← ha2, ← hc2]
      norm_num

/-- Claim C10: the unified resolver equals the classify-driven dispatch
to the mode-specific resolvers applied with all Python default
arguments (fixed coordinate keys and offset 5), and the configurable
test keys influence the result only through the classification of the
first dataset. -/
theorem unified_extent_refines_classify (d : Dataset) (rest : List Dataset)
    (pk bk pk2 bk2 : String) :
    (get_site_plot_extent (d :: rest) pk bk =
      match classify d pk bk with
      | .POINT =>
        get_site_plot_extent_from_point (d :: rest) "longitude" "latitude" 5
      | .BBOX =>
        get_site_plot_extent_from_bbox (d :: rest) "geospatial_lon_min"
          "geospatial_lon_max" "geospatial_lat_min" "geospatial_lat_max" 5
      | .UNRESOLVED => .error .noCoordKeysKeyError) ∧
    (classify d pk bk = classify d pk2 bk2 →
      get_site_plot_extent (d :: rest) pk bk =
        get_site_plot_extent (d :: rest) pk2 bk2) := by
  have hc : ∀ pkx bkx, get_site_plot_extent (d :: rest) pkx bkx =
      match classify d pkx bkx with
      | .POINT =>
        get_site_plot_extent_from_point (d :: rest) "longitude" "latitude" 5
      | .BBOX =>
        get_site_plot_extent_from_bbox (d :: rest) "geospatial_lon_min"
          "geospatial_lon_max" "geospatial_lat_min" "geospatial_lat_max" 5
      | .UNRESOLVED => .error .noCoordKeysKeyError := by
    intro pkx bkx
    by_cases hp : d.headerHasKey pkx = true
    · simp [get_site_plot_extent, classify, hp]
    · by_cases hb : d.headerHasKey bkx = true
      · simp [get_site_plot_extent, classify, hp, hb]
      · simp [get_site_plot_extent, classify, hp, hb]
  exact ⟨hc pk bk, fun h => by rw [hc pk bk, hc pk2 bk2, h]⟩

/-- Witness for C10: on the point scenario the unified resolver equals
the classify dispatch, and swapping the bbox test key for another key
that classifies identically leaves the result unchanged. -/
theorem unified_extent_refines_classify_witness :
    (get_site_plot_extent [siteDs1, siteDs2] "longitude" "geospatial_lon_min" =
      match classify siteDs1 "longitude" "geospatial_lon_min" with
      | .POINT =>
        get_site_plot_extent_from_point [siteDs1, siteDs2] "longitude" "latitude" 5
      | .BBOX =>
        get_site_plot_extent_from_bbox [siteDs1, siteDs2] "geospatial_lon_min"
          "geospatial_lon_max" "geospatial_lat_min" "geospatial_lat_max" 5
      | .UNRESOLVED => .error .noCoordKeysKeyError) ∧
    (get_site_plot_extent [siteDs1, siteDs2] "longitude" "geospatial_lon_min" =
      get_site_plot_extent [siteDs1, siteDs2] "longitude" "geospatial_lat_min") :=
  ⟨(unified_extent_refines_classify siteDs1 [siteDs2] "longitude"
      "geospatial_lon_min" "longitude" "geospatial_lat_min").1,
   (unified_extent_refines_classify siteDs1 [siteDs2] "longitude"
      "geospatial_lon_min" "longitude" "geospatial_lat_min").2 rfl⟩

end XcsvPlotMap
